import Mathlib

/-!
Verification of the playback-supervision core of Listen.TUI
(`src/listentui/widgets/mpvThread.py` and `src/listentui/data/config.py`).

The development shallowly embeds, from the source:
* `MPVWatcher` (the health monitor): its `dispatch_restart` escalation policy
  and the polling loop's `terminated` flag;
* `MPVThread` (the supervisor): the restart lock protocol, the property
  getters (`paused`, `core_idle`, `volume`, `ao_volume`) over `_get_value`,
  and the `preview` single-slot guard;
* `MPVPreviewer.run`: the preview session's event delivery (`safe_call`) and
  the end-of-run handling of the main player's paused state;
* the `Player` config dataclass and the attribute names the watcher reads.
-/

namespace ListenTui

/-! ## Health monitor: MPVWatcher -/

/-- Messages posted while the watcher dispatches a restart: the two kinds of
restart attempt (with the timeout value passed to them), and the Textual
messages `Started`, `SuccessfulRestart`, `FailedRestart`, `Fail` posted to the
main widget. -/
inductive WEvent where
  | softRestart (timeout : Nat)
  | hardRestart (timeout : Nat)
  | startedMsg
  | successfulRestartMsg
  | failedRestartMsg (retryNo : Nat) (timeout : Nat) (softCap : Nat) (hardCap : Nat)
  | failMsg
deriving DecidableEq, Repr

/-- An event together with the value of `MPVWatcher.retries` at the moment the
event is emitted (used to state the retry-counter invariants). -/
structure Emit where
  ev : WEvent
  retriesAt : Nat
deriving DecidableEq, Repr

/-- Outcome of one restart attempt as seen by the watcher: the attempt reaches
playing within its timeout, or `wait_until_playing` raises `TimeoutError`. -/
inductive Outcome where
  | success
  | timeoutErr
deriving DecidableEq, Repr

/-- Timeout computation in `MPVWatcher.dispatch_restart` (mpvThread.py:79):
`min(self.base_timeout + 5 * self.retries, self.timeout_cap)`. -/
def dispatchTimeout (baseTimeout retries timeoutCap : Nat) : Nat :=
  min (baseTimeout + 5 * retries) timeoutCap

/-- `MPVWatcher.dispatch_restart` (mpvThread.py:77-100), given the retry count
before the call and the attempt's outcome.  Returns the retry count after the
call and the emitted events in order.  Faithful to the source:
`self.retries += 1` happens first; then the timeout is computed; if
`retries >= hard_retry_cap` a `Fail` message is posted and nothing is
attempted; otherwise a hard restart is attempted when
`retries > soft_retry_cap`, else a soft restart.  A successful soft restart
posts `SuccessfulRestart` from inside `MPVThread.restart` (mpvThread.py:358)
before the watcher resets `retries` to 0 and posts its own
`SuccessfulRestart` (mpvThread.py:95-96); a successful hard restart posts
`Started` from `start_mpv` (mpvThread.py:317).  On `TimeoutError` the watcher
posts `FailedRestart(retries, timeout, soft_cap, hard_cap)`. -/
def MPVWatcher.dispatch_restart (base cap softCap hardCap retries0 : Nat) (oc : Outcome) :
    Nat × List Emit :=
  let retries := retries0 + 1
  let timeout := dispatchTimeout base retries cap
  if hardCap ≤ retries then
    (retries, [⟨.failMsg, retries⟩])
  else if softCap < retries then
    match oc with
    | .success =>
        (0, [⟨.hardRestart timeout, retries⟩, ⟨.startedMsg, retries⟩,
             ⟨.successfulRestartMsg, 0⟩])
    | .timeoutErr =>
        (retries, [⟨.hardRestart timeout, retries⟩,
                   ⟨.failedRestartMsg retries timeout softCap hardCap, retries⟩])
  else
    match oc with
    | .success =>
        (0, [⟨.softRestart timeout, retries⟩, ⟨.successfulRestartMsg, retries⟩,
             ⟨.successfulRestartMsg, 0⟩])
    | .timeoutErr =>
        (retries, [⟨.softRestart timeout, retries⟩,
                   ⟨.failedRestartMsg retries timeout softCap hardCap, retries⟩])

/-- Watcher thread state: the retry counter and the `terminated` flag guarding
the polling loop (mpvThread.py:55, set only by `MPVWatcher.terminate`). -/
structure WatcherState where
  retries : Nat
  terminated : Bool
deriving DecidableEq, Repr

/-- What one iteration of `MPVWatcher.run`'s while-body observes
(mpvThread.py:54-69): player dead, player restarting, stalled once but
recovered after the grace sleep, stalled twice (which dispatches a restart
with some outcome), or playing normally. -/
inductive PollObs where
  | notAlive
  | restarting
  | stalledOnce
  | stalledTwice (oc : Outcome)
  | active
deriving DecidableEq, Repr

/-- Whether a soft restart was attempted among the emitted events. -/
def dispatchedSoft (es : List Emit) : Bool :=
  es.any fun e => match e.ev with | .softRestart _ => true | _ => false

/-- Whether a hard restart was attempted among the emitted events. -/
def dispatchedHard (es : List Emit) : Bool :=
  es.any fun e => match e.ev with | .hardRestart _ => true | _ => false

/-- Whether any restart was attempted among the emitted events. -/
def dispatchedAny (es : List Emit) : Bool :=
  dispatchedSoft es || dispatchedHard es

/-- Number of soft-restart attempts among the emitted events. -/
def countSoftAttempts (es : List Emit) : Nat :=
  es.countP fun e => match e.ev with | .softRestart _ => true | _ => false

/-- Number of hard-restart attempts among the emitted events. -/
def countHardAttempts (es : List Emit) : Nat :=
  es.countP fun e => match e.ev with | .hardRestart _ => true | _ => false

/-- Number of fatal `Fail` messages among the emitted events. -/
def countFailMsgs (es : List Emit) : Nat :=
  es.countP fun e => match e.ev with | .failMsg => true | _ => false

/-- One iteration of `MPVWatcher.run`'s loop body (mpvThread.py:54-69) with
the watcher's state: only the stalled-twice branch calls `dispatch_restart`.
A dispatch that attempts a hard restart sets the watcher's own `terminated`
flag, because `MPVThread.hard_restart` (mpvThread.py:90) begins with
`self.terminate()` (mpvThread.py:371), which calls
`self.watcher.terminate()` (mpvThread.py:416), which sets
`self.terminated = True` (mpvThread.py:102-103) — on the success and on the
timeout outcome alike, since the terminate call precedes
`wait_until_playing`.  Soft attempts and the at-hard-cap `Fail` branch do not
touch the flag. -/
def MPVWatcher.run_iter (base cap softCap hardCap : Nat) (s : WatcherState) (obs : PollObs) :
    WatcherState × List Emit :=
  match obs with
  | .stalledTwice oc =>
      let d := MPVWatcher.dispatch_restart base cap softCap hardCap s.retries oc
      ({ retries := d.1, terminated := s.terminated || dispatchedHard d.2 }, d.2)
  | _ => (s, [])

/-- Loop guard of `MPVWatcher.run`: `while not self.terminated` (mpvThread.py:55). -/
def loopContinues (s : WatcherState) : Bool := !s.terminated

/-- The polling loop of `MPVWatcher.run` over a sequence of per-iteration
observations: before each iteration the guard `while not self.terminated`
is checked; once the flag is set the remaining observations are never
processed (the thread has exited). -/
def MPVWatcher.runLoop (base cap softCap hardCap : Nat) (s : WatcherState) :
    List PollObs → WatcherState × List Emit
  | [] => (s, [])
  | obs :: rest =>
      if s.terminated then (s, [])
      else
        let d := MPVWatcher.run_iter base cap softCap hardCap s obs
        let r := MPVWatcher.runLoop base cap softCap hardCap d.1 rest
        (r.1, d.2 ++ r.2)

/-- `n` consecutive poll iterations that each observe a stall twice and whose
dispatched restart attempt times out. -/
def failObs (n : Nat) : List PollObs :=
  List.replicate n (.stalledTwice .timeoutErr)

/-- The watcher loop run from its initial state (retries 0, not terminated,
caps from `MPVWatcher.__init__`) over `n` consecutive failing stall
observations. -/
def watcherFailRun (n : Nat) : WatcherState × List Emit :=
  MPVWatcher.runLoop 20 60 5 10 ⟨0, false⟩ (failObs n)

/-- Timeout values of the restart attempts among the emitted events. -/
def attemptTimeouts (es : List Emit) : List Nat :=
  es.filterMap fun e =>
    match e.ev with
    | .softRestart t => some t
    | .hardRestart t => some t
    | _ => none

lemma dispatch_timeoutErr_fst (base cap softCap hardCap r : Nat) :
    (MPVWatcher.dispatch_restart base cap softCap hardCap r .timeoutErr).1 = r + 1 := by
  unfold MPVWatcher.dispatch_restart
  dsimp only
  split
  · rfl
  · split <;> rfl

lemma dispatch_soft_branch (r : Nat) (h : r + 1 ≤ 5) (oc : Outcome) :
    MPVWatcher.dispatch_restart 20 60 5 10 r oc =
      match oc with
      | .success =>
          (0, [⟨.softRestart (dispatchTimeout 20 (r + 1) 60), r + 1⟩,
               ⟨.successfulRestartMsg, r + 1⟩, ⟨.successfulRestartMsg, 0⟩])
      | .timeoutErr =>
          (r + 1, [⟨.softRestart (dispatchTimeout 20 (r + 1) 60), r + 1⟩,
                   ⟨.failedRestartMsg (r + 1) (dispatchTimeout 20 (r + 1) 60) 5 10, r + 1⟩]) := by
  unfold MPVWatcher.dispatch_restart
  have h1 : ¬(10 ≤ r + 1) := by omega
  have h2 : ¬(5 < r + 1) := by omega
  simp only [h1, h2, if_false]

lemma dispatch_hard_branch (r : Nat) (h5 : 5 < r + 1) (h10 : r + 1 < 10) (oc : Outcome) :
    MPVWatcher.dispatch_restart 20 60 5 10 r oc =
      match oc with
      | .success =>
          (0, [⟨.hardRestart (dispatchTimeout 20 (r + 1) 60), r + 1⟩, ⟨.startedMsg, r + 1⟩,
               ⟨.successfulRestartMsg, 0⟩])
      | .timeoutErr =>
          (r + 1, [⟨.hardRestart (dispatchTimeout 20 (r + 1) 60), r + 1⟩,
                   ⟨.failedRestartMsg (r + 1) (dispatchTimeout 20 (r + 1) 60) 5 10, r + 1⟩]) := by
  unfold MPVWatcher.dispatch_restart
  have h1 : ¬(10 ≤ r + 1) := by omega
  simp only [h1, h5, if_false, if_true]

lemma dispatch_fail_branch (r : Nat) (h : 10 ≤ r + 1) (oc : Outcome) :
    MPVWatcher.dispatch_restart 20 60 5 10 r oc = (r + 1, [⟨.failMsg, r + 1⟩]) := by
  unfold MPVWatcher.dispatch_restart
  simp only [h, if_true]

lemma runLoop_of_terminated (base cap softCap hardCap : Nat) (s : WatcherState)
    (h : s.terminated = true) :
    ∀ l, MPVWatcher.runLoop base cap softCap hardCap s l = (s, []) := by
  intro l
  cases l with
  | nil => rfl
  | cons o rest => simp [MPVWatcher.runLoop, h]

/-- C2 counterexample: run the watcher's polling loop from its initial state
over ten consecutive failing stall observations.  Only one hard restart is
ever dispatched (the 6th dispatch, not the 6th-10th), no fatal `Fail` message
is ever emitted, and the retry counter stops at 6 — because the 6th
dispatch's hard restart terminates the watcher itself, so the loop exits
before any 7th dispatch. -/
theorem c2_counterexample :
    countHardAttempts (watcherFailRun 10).2 = 1 ∧
    countSoftAttempts (watcherFailRun 10).2 = 5 ∧
    countFailMsgs (watcherFailRun 10).2 = 0 ∧
    (watcherFailRun 10).1.retries = 6 ∧
    (watcherFailRun 10).1.terminated = true := by
  decide

/-- C2 amended: with softCap=5 and hardCap=10, in a watcher-driven run of
consecutive failed dispatches the 1st-5th dispatches attempt soft restarts
(after five the loop is still polling), and the 6th attempts a hard restart;
that hard restart immediately calls `MPVThread.terminate` and hence
`MPVWatcher.terminate` (mpvThread.py:371,416,102-103), setting the watcher's
`terminated` flag whatever the attempt's outcome, so the polling loop exits
on its own right after the 6th dispatch: no 7th-10th dispatch ever occurs,
no further restart is ever attempted, the retry counter stops at 6 short of
the hard cap, and the fatal `Fail` event is never emitted on this path —
whatever observations would follow, the exited loop processes none of them. -/
theorem c2_amended :
    (countSoftAttempts (watcherFailRun 5).2 = 5 ∧
     countHardAttempts (watcherFailRun 5).2 = 0 ∧
     (watcherFailRun 5).1.terminated = false ∧
     loopContinues (watcherFailRun 5).1 = true) ∧
    (countSoftAttempts (watcherFailRun 6).2 = 5 ∧
     countHardAttempts (watcherFailRun 6).2 = 1 ∧
     countFailMsgs (watcherFailRun 6).2 = 0 ∧
     (watcherFailRun 6).1.retries = 6 ∧
     (watcherFailRun 6).1.terminated = true ∧
     loopContinues (watcherFailRun 6).1 = false) ∧
    (∀ l : List PollObs,
      MPVWatcher.runLoop 20 60 5 10 (watcherFailRun 6).1 l = ((watcherFailRun 6).1, [])) := by
  refine ⟨by decide, by decide, ?_⟩
  exact runLoop_of_terminated 20 60 5 10 (watcherFailRun 6).1 (by decide)

/-- C6 counterexample: after one failed dispatch (retries = 1), a dispatch
whose soft restart succeeds emits a `SuccessfulRestart` message (the one
posted from inside `MPVThread.restart`, mpvThread.py:358) at a moment when the
retry counter is 2, not 0 — so the retry counter does not equal 0 immediately
after every `SuccessfulRestart` emission. -/
theorem c6_counterexample :
    (⟨.successfulRestartMsg, 2⟩ : Emit) ∈ (MPVWatcher.dispatch_restart 20 60 5 10 1 .success).2
      ∧ (2 : Nat) ≠ 0 := by
  decide

/-- C6 amended: the retry counter is incremented at the start of every
dispatch, so every dispatch whose attempt times out — and also every dispatch
at or beyond the hard cap, which attempts no restart at all — leaves the
counter exactly one higher; a dispatch below the hard cap whose attempt
succeeds resets the counter to exactly 0 and the watcher's own final
`SuccessfulRestart` message is emitted with the counter already 0.  (The
additional `SuccessfulRestart` posted from inside `MPVThread.restart` is
emitted before the reset, while the counter is nonzero.) -/
theorem c6_amended (r0 : Nat) :
    ((MPVWatcher.dispatch_restart 20 60 5 10 r0 .timeoutErr).1 = r0 + 1) ∧
    (10 ≤ r0 + 1 →
      dispatchedAny (MPVWatcher.dispatch_restart 20 60 5 10 r0 .timeoutErr).2 = false) ∧
    (r0 + 1 < 10 →
      (MPVWatcher.dispatch_restart 20 60 5 10 r0 .success).1 = 0 ∧
      (MPVWatcher.dispatch_restart 20 60 5 10 r0 .success).2.getLast?
        = some ⟨.successfulRestartMsg, 0⟩) := by
  refine ⟨dispatch_timeoutErr_fst 20 60 5 10 r0, ?_, ?_⟩
  · intro h10
    rw [dispatch_fail_branch r0 h10]
    simp [dispatchedAny, dispatchedSoft, dispatchedHard]
  · intro h10
    by_cases h5 : r0 + 1 ≤ 5
    · rw [dispatch_soft_branch r0 h5]
      simp
    · rw [dispatch_hard_branch r0 (by omega) h10]
      simp

/-- Witness for c6_amended at r0 = 9 and r0 = 0: the 10th dispatch increments
the counter to 10 without attempting a restart, and a first dispatch whose
attempt succeeds ends with the counter 0. -/
theorem c6_amended_witness :
    (MPVWatcher.dispatch_restart 20 60 5 10 9 .timeoutErr).1 = 10 ∧
    dispatchedAny (MPVWatcher.dispatch_restart 20 60 5 10 9 .timeoutErr).2 = false ∧
    (MPVWatcher.dispatch_restart 20 60 5 10 0 .success).1 = 0 :=
  ⟨(c6_amended 9).1, (c6_amended 9).2.1 (by decide), ((c6_amended 0).2.2 (by decide)).1⟩

/-- C7 confirmed: every restart attempt dispatched by the watcher is passed
the timeout `min(base + 5*r, cap)` where `r` is the retry count after the
increment that opens the dispatch (no attempt at all once the hard cap is
reached); with base 20 and cap 60 the timeout formula never exceeds 60, and
it yields 20, 45, 60 at r = 0, 5, 10. -/
theorem c7_timeout_bounded :
    (∀ r0 oc, attemptTimeouts (MPVWatcher.dispatch_restart 20 60 5 10 r0 oc).2 =
      if 10 ≤ r0 + 1 then [] else [dispatchTimeout 20 (r0 + 1) 60]) ∧
    (∀ r, dispatchTimeout 20 r 60 = min (20 + 5 * r) 60 ∧ dispatchTimeout 20 r 60 ≤ 60) ∧
    dispatchTimeout 20 0 60 = 20 ∧ dispatchTimeout 20 5 60 = 45 ∧
    dispatchTimeout 20 10 60 = 60 := by
  refine ⟨?_, fun r => ⟨rfl, Nat.min_le_right _ _⟩, rfl, rfl, rfl⟩
  intro r0 oc
  by_cases h10 : 10 ≤ r0 + 1
  · rw [dispatch_fail_branch r0 h10]
    simp [attemptTimeouts, h10]
  · rw [if_neg h10]
    by_cases h5 : r0 + 1 ≤ 5
    · rw [dispatch_soft_branch r0 h5]
      cases oc <;> simp [attemptTimeouts]
    · rw [dispatch_hard_branch r0 (by omega) (by omega)]
      cases oc <;> simp [attemptTimeouts]

/-! ## Supervisor restart lock: MPVThread.restart / hard_restart

`MPVThread._restart_lock` is a `threading.Lock` (mpvThread.py:120): it is not
reentrant, so acquiring it while it is held blocks the acquiring thread until
some thread releases it — also when the holder is the acquiring thread
itself, in which case no release can ever happen. -/

/-- Result of a same-thread acquire of the non-reentrant restart lock. -/
inductive LockAcq where
  | acquired
  | blockedForever
deriving DecidableEq, Repr

/-- Acquiring `threading.Lock` from the thread that already holds it: the
acquire blocks forever, since the only thread that could release it is the
one blocked. -/
def acquireHeldBySelf (held : Bool) : LockAcq :=
  if held then .blockedForever else .acquired

/-- Whether a restart call runs to completion or deadlocks. -/
inductive RestartRun where
  | completed
  | deadlocked
deriving DecidableEq, Repr

/-- `MPVThread.hard_restart` (mpvThread.py:368-373) begins with
`with self._restart_lock:`; `held` is whether the calling thread already
holds that lock when it calls `hard_restart`. -/
def MPVThread.hard_restart (held : Bool) : RestartRun :=
  match acquireHeldBySelf held with
  | .blockedForever => .deadlocked
  | .acquired => .completed

/-- Outcome of the body of `MPVThread.restart`'s with-block: the
play/wait-until-playing/restore sequence completes, or `wait_until_playing`
raises `ShutdownError` (mpvThread.py:349-356). -/
inductive SoftBody where
  | ok
  | shutdownErr
deriving DecidableEq, Repr

/-- The soft-to-hard escalation inside `MPVThread.restart` (mpvThread.py:346-358):
the whole body, including the `except ShutdownError` handler that calls
`self.hard_restart()`, executes inside `with self._restart_lock:`, so at the
handler's call the calling thread still holds the restart lock. -/
def MPVThread.restart_escalation (body : SoftBody) : RestartRun :=
  match body with
  | .ok => .completed
  | .shutdownErr => MPVThread.hard_restart true

/-- C10 confirmed: when the soft restart's body raises `ShutdownError`, the
handler invokes `hard_restart` while the restart lock is still held by the
same thread; `hard_restart`'s opening acquire of that non-reentrant lock
therefore blocks forever, so the soft-to-hard escalation inside
`MPVThread.restart` can never complete (it completes exactly when the lock is
not already held). -/
theorem c10_escalation_deadlocks :
    MPVThread.restart_escalation .shutdownErr = .deadlocked ∧
    acquireHeldBySelf true = .blockedForever ∧
    (∀ held, MPVThread.hard_restart held = .completed ↔ held = false) := by
  refine ⟨rfl, rfl, ?_⟩
  decide

/-! ## Concurrent restart calls: the lock serializes, it does not skip

Two threads each execute `MPVThread.restart`, i.e.
`with self._restart_lock: <body>` (mpvThread.py:346-358).  Program counter of
each thread: 0 = at the acquire, 1 = holding the lock, body not yet run,
2 = body done, still holding, 3 = lock released, call completed.  A thread at
the acquire while the lock is held by the other stays where it is
(`Lock.acquire` blocks; the call is neither skipped nor abandoned). -/

/-- Joint state of two threads concurrently calling `MPVThread.restart`. -/
structure TwoRestart where
  pc0 : Fin 4
  pc1 : Fin 4
  lockHeld : Bool
deriving DecidableEq, Repr, Fintype

/-- Both threads before their calls, lock free. -/
def initTwo : TwoRestart := ⟨0, 0, false⟩

/-- One step of a single thread of `MPVThread.restart`: blocking acquire,
body, release. -/
def stepThread (pc : Fin 4) (lockHeld : Bool) : Fin 4 × Bool :=
  if pc = 0 then (if lockHeld then (0, lockHeld) else (1, true))
  else if pc = 1 then (2, lockHeld)
  else if pc = 2 then (3, false)
  else (pc, lockHeld)

/-- Scheduler step: `t = false` steps thread 0, `t = true` steps thread 1. -/
def stepTwo (s : TwoRestart) (t : Bool) : TwoRestart :=
  if t then
    let r := stepThread s.pc1 s.lockHeld
    { s with pc1 := r.1, lockHeld := r.2 }
  else
    let r := stepThread s.pc0 s.lockHeld
    { s with pc0 := r.1, lockHeld := r.2 }

/-- Run a schedule (list of scheduler choices) from a state. -/
def runTwo (s : TwoRestart) : List Bool → TwoRestart
  | [] => s
  | t :: ts => runTwo (stepTwo s t) ts

/-- A thread is inside the lock-protected critical section. -/
def inCritical (pc : Fin 4) : Bool := pc = 1 || pc = 2

/-- A thread's restart call has run to completion. -/
def completedCall (pc : Fin 4) : Bool := pc = 3

/-- Mutual exclusion: the two restart bodies are never in the critical
section at the same time. -/
def mutexOK (s : TwoRestart) : Bool :=
  !(inCritical s.pc0 && inCritical s.pc1)

/-- Inductive invariant: the lock is held exactly when one of the threads is
in the critical section, and never both. -/
def lockInv (s : TwoRestart) : Bool :=
  (s.lockHeld == (inCritical s.pc0 || inCritical s.pc1)) && mutexOK s

lemma lockInv_step : ∀ (s : TwoRestart) (t : Bool),
    lockInv s = true → lockInv (stepTwo s t) = true := by
  decide

lemma lockInv_run : ∀ (sched : List Bool) (s : TwoRestart),
    lockInv s = true → lockInv (runTwo s sched) = true := by
  intro sched
  induction sched with
  | nil => intro s h; exact h
  | cons t ts ih => intro s h; exact ih (stepTwo s t) (lockInv_step s t h)

/-- C4 counterexample: with thread 0's restart in flight (it has acquired the
lock), thread 1's overlapping restart request is not a no-op: after the
schedule's first two steps thread 1 is still waiting at the acquire (not
skipped), and under the full schedule both restart calls run to completion —
two restarts execute in one invocation window, the second after the first
releases the lock. -/
theorem c4_counterexample :
    (inCritical (runTwo initTwo [false, true]).pc0 = true ∧
     (runTwo initTwo [false, true]).pc1 = 0 ∧
     (runTwo initTwo [false, true]).lockHeld = true) ∧
    (completedCall (runTwo initTwo [false, true, false, false, true, true, true]).pc0 = true ∧
     completedCall (runTwo initTwo [false, true, false, false, true, true, true]).pc1 = true) := by
  decide

/-- C4 amended: the restart lock gives mutual exclusion — under every
schedule, the two concurrent `MPVThread.restart` calls are never both inside
the lock-protected critical section — but an overlapping call blocks on the
lock and executes after the in-flight restart completes (it is queued by the
blocking acquire, not skipped; only `MPVWatcher.run` skips dispatching while
`is_restarting()` reports the lock held). -/
theorem c4_amended :
    (∀ sched : List Bool, mutexOK (runTwo initTwo sched) = true) ∧
    (completedCall (runTwo initTwo [false, true, false, false, true, true, true]).pc0 = true ∧
     completedCall (runTwo initTwo [false, true, false, false, true, true, true]).pc1 = true) := by
  refine ⟨fun sched => ?_, by decide⟩
  have h := lockInv_run sched initTwo (by decide)
  simp only [lockInv, Bool.and_eq_true] at h
  exact h.2

/-! ## Preview session: MPVPreviewer.run -/

/-- The preview status kinds of `PreviewType` (mpvThread.py:21-28). -/
inductive PreviewType where
  | UNABLE
  | ERROR
  | LOCKED
  | PLAYING
  | FINISHED
  | DATA
  | DONE
deriving DecidableEq, Repr

/-- State threaded through `MPVPreviewer.run`: the previewer's `terminated`
flag, the statuses actually delivered to the caller's callback, and the main
player's paused flag (`none` when `MPVThread.instance` is absent).
`main_player.pause()` sets the flag true; `main_player.play()` — run by
`safe_play` — sets it false (mpvThread.py:378-383). -/
structure PvState where
  terminated : Bool
  delivered : List PreviewType
  mainPaused : Option Bool
deriving DecidableEq, Repr

/-- `safe_call` (mpvThread.py:454-457): the callback is invoked only while
`self.terminated` is false; afterwards statuses are dropped. -/
def safe_call (s : PvState) (st : PreviewType) : PvState :=
  if s.terminated then s else { s with delivered := s.delivered ++ [st] }

/-- `self.main_player.pause()` as called at mpvThread.py:483-484. -/
def pauseMain (s : PvState) : PvState :=
  { s with mainPaused := s.mainPaused.map fun _ => true }

/-- The block after the try-statement (mpvThread.py:492-494): after
`player.terminate()`, if the main player reports paused, a thread running
`safe_play` is spawned, which calls `main_player.play()` and thereby unpauses
it.  (The pre-preview paused state is nowhere consulted.) -/
def restoreMain (s : PvState) : PvState :=
  match s.mainPaused with
  | none => s
  | some p => if p then { s with mainPaused := some false } else s

/-- How a started preview session ends. -/
inductive PvOutcome where
  | openFail
  | playbackErr
  | terminatedMid
  | finished
deriving DecidableEq, Repr, Fintype

/-- Result of a preview session: delivered statuses, the main player's paused
flag afterwards, and the previewer's `terminated` flag afterwards. -/
structure PvResult where
  delivered : List PreviewType
  mainPausedAfter : Option Bool
  terminatedAfter : Bool
deriving DecidableEq, Repr

/-- `MPVPreviewer.run` (mpvThread.py:446-494) for each way the session can
end, threading the state through the source's control flow (`DATA` statuses
from the cache observer are left out; they carry no state):

* `openFail`: the end-file ERROR callback `check` fires — `safe_call(UNABLE)`
  then `self.terminated = True` (mpvThread.py:466-470); `wait_until_playing`
  raises, the except-branch's `safe_call(ERROR)` is dropped because
  `terminated` is set; the else-branch (`DONE`) is skipped.
* `playbackErr`: `wait_until_playing` succeeds — `safe_call(PLAYING)`, then
  `main_player.pause()`; `wait_for_playback` raises with `terminated` still
  false — `safe_call(ERROR)` delivered; else-branch skipped.
* `terminatedMid`: as above until `MPVPreviewer.terminate` sets `terminated`
  and kills the player (mpvThread.py:496-499); `wait_for_playback` raises and
  `safe_call(ERROR)` is dropped; else-branch skipped.
* `finished`: `safe_call(PLAYING)`, `main_player.pause()`,
  `wait_for_playback` returns, `safe_call(FINISHED)`, and the else-branch
  delivers `safe_call(DONE)`.

All four paths end with `player.terminate()` and the resume-if-paused block
modelled by `restoreMain`. -/
def MPVPreviewer.run (mainPaused0 : Option Bool) (oc : PvOutcome) : PvResult :=
  let s0 : PvState := ⟨false, [], mainPaused0⟩
  let sEnd :=
    match oc with
    | .openFail =>
        let s1 := safe_call s0 .UNABLE
        let s2 := { s1 with terminated := true }
        safe_call s2 .ERROR
    | .playbackErr =>
        let s1 := pauseMain (safe_call s0 .PLAYING)
        safe_call s1 .ERROR
    | .terminatedMid =>
        let s1 := pauseMain (safe_call s0 .PLAYING)
        let s2 := { s1 with terminated := true }
        safe_call s2 .ERROR
    | .finished =>
        let s1 := pauseMain (safe_call s0 .PLAYING)
        safe_call (safe_call s1 .FINISHED) .DONE
  let sFinal := restoreMain sEnd
  ⟨sFinal.delivered, sFinal.mainPaused, sFinal.terminated⟩

/-- C1 counterexample: the main stream is paused before the preview starts
and the preview finishes normally, yet after the preview's terminal event the
main player is unpaused (`some false`), not restored to its pre-preview
paused state (`some true`): the end-of-run block resumes the main player
whenever it is currently paused, without consulting the pre-preview state. -/
theorem c1_counterexample :
    (MPVPreviewer.run (some true) .finished).mainPausedAfter = some false ∧
    (some false : Option Bool) ≠ some true := by
  decide

/-- C1 amended: with a main player present, every exit path of the preview —
open failure, playback error, termination, or natural completion — leaves the
main player unpaused: the cleanup resumes the main player exactly when it is
currently paused, so the pre-preview paused state is restored only when that
state was "playing" (paused = false). -/
theorem c1_amended : ∀ (pre : Bool) (oc : PvOutcome),
    (MPVPreviewer.run (some pre) oc).mainPausedAfter = some false := by
  decide

/-- C5 code bug, evaluated at the failing input: a started preview whose
playback errors delivers `PLAYING` then `ERROR` and never a terminal `DONE`;
in general a `DONE` is delivered exactly on the natural-completion path and
on no other outcome (on the error paths the `DONE` emission sits in the
try-statement's else-branch and is skipped, and after termination even the
`ERROR` status is dropped by `safe_call`). -/
theorem c5_done_only_on_finish :
    (MPVPreviewer.run (some false) .playbackErr).delivered
      = [.PLAYING, .ERROR] ∧
    (MPVPreviewer.run (some false) .playbackErr).delivered.count PreviewType.DONE = 0 ∧
    (∀ (m : Option Bool) (oc : PvOutcome),
      (MPVPreviewer.run m oc).delivered.count PreviewType.DONE
        = if oc = .finished then 1 else 0) := by
  refine ⟨by decide, by decide, ?_⟩
  intro m oc
  cases m with
  | none => cases oc <;> decide
  | some p => cases p <;> cases oc <;> decide

/-! ## Preview single-slot guard: MPVThread.preview -/

/-- The static preview slot `MPVThread.pv_thread`: `none` when no previewer
thread was ever created, `some alive` when one exists with `is_alive()` equal
to `alive`. -/
structure PvSlot where
  pvAlive : Option Bool
deriving DecidableEq, Repr

/-- Result of a `MPVThread.preview` call as seen by the caller. -/
inductive PreviewCall where
  | locked
  | started
deriving DecidableEq, Repr

/-- `MPVThread.preview` (mpvThread.py:425-432): if `pv_thread` exists and is
alive, the callback is invoked with `LOCKED` at once and nothing else happens
(no new session, no blocking, no queueing); otherwise a new `MPVPreviewer` is
created, stored in the slot and started. -/
def MPVThread.preview (s : PvSlot) : PvSlot × PreviewCall :=
  match s.pvAlive with
  | some true => (s, .locked)
  | _ => (⟨some true⟩, .started)

/-- A preview session's terminal event followed by its thread exiting:
`is_alive()` becomes false. -/
def sessionEnd (_ : PvSlot) : PvSlot := ⟨some false⟩

/-- C8 confirmed: a `preview()` call while a previewer thread is alive
returns `LOCKED` to the callback and leaves the slot unchanged (no second
session is started), while a `preview()` call after the active session has
ended starts a new session. -/
theorem c8_preview_mutex (s : PvSlot) (h : s.pvAlive = some true) :
    MPVThread.preview s = (s, .locked) ∧
    (MPVThread.preview (sessionEnd s)).2 = .started := by
  constructor
  · simp [MPVThread.preview, h]
  · rfl

/-- Witness for c8_preview_mutex at the slot holding a live session. -/
theorem c8_preview_mutex_witness :
    MPVThread.preview ⟨some true⟩ = (⟨some true⟩, .locked) ∧
    (MPVThread.preview (sessionEnd ⟨some true⟩)).2 = .started :=
  c8_preview_mutex ⟨some true⟩ rfl

/-! ## Property getters on a possibly dead backend: MPVThread._get_value -/

/-- Result of `getattr(self.player, name)` on the mpv backend: a value (which
python-mpv may itself report as `None`), or one of the exceptions that
`_get_value` catches — `RuntimeError`, `ShutdownError`, `OSError` — raised
when the backend is dead or mid-shutdown. -/
inductive ReadRes (α : Type) where
  | val (v : Option α)
  | raises
deriving DecidableEq, Repr

/-- `MPVThread._get_value` (mpvThread.py:252-256): the attribute value, or
`None` when one of the caught exceptions is raised. -/
def MPVThread.get_value {α : Type} : ReadRes α → Option α
  | .val v => v
  | .raises => none

/-- Python `bool(x)` applied to the optional boolean `_get_value` returns:
`bool(None)` is `False`. -/
def pyBool (o : Option Bool) : Bool := o.getD false

/-- The `paused` getter (mpvThread.py:215-217):
`bool(self._get_value("pause"))`. -/
def MPVThread.pausedGetter (r : ReadRes Bool) : Bool := pyBool (MPVThread.get_value r)

/-- The `core_idle` getter (mpvThread.py:224-226):
`bool(self._get_value("core_idle"))`. -/
def MPVThread.coreIdleGetter (r : ReadRes Bool) : Bool := pyBool (MPVThread.get_value r)

/-- The `volume` getter (mpvThread.py:228-233): `0` when `_get_value` is
falsy (`None` or zero), otherwise the value. -/
def MPVThread.volumeGetter (r : ReadRes Int) : Int :=
  match MPVThread.get_value r with
  | none => 0
  | some v => if v = 0 then 0 else v

/-- The `ao_volume` getter (mpvThread.py:240-245), same shape as `volume`
(the float is modelled as an integer; only `None`-vs-value matters here). -/
def MPVThread.aoVolumeGetter (r : ReadRes Int) : Int :=
  match MPVThread.get_value r with
  | none => 0
  | some v => if v = 0 then 0 else v

/-- C9 code bug, evaluated at the failing input: a property query on a dead
backend raises inside `getattr`, `_get_value` converts it to `None`, and the
getters then collapse that `None` — `paused` returns `bool(None) = False`
(indistinguishable from a genuine unpaused state, and its codomain has no
third value at all), `core_idle` returns `False`, `volume` and `ao_volume`
return `0`.  No exception propagates, but no getter returns a distinct
"unknown". -/
theorem c9_dead_backend_reads :
    MPVThread.pausedGetter .raises = false ∧
    MPVThread.pausedGetter (.val none) = false ∧
    MPVThread.coreIdleGetter .raises = false ∧
    MPVThread.volumeGetter .raises = 0 ∧
    MPVThread.aoVolumeGetter .raises = 0 ∧
    (∀ r : ReadRes Bool, MPVThread.pausedGetter r = false ∨ MPVThread.pausedGetter r = true) := by
  refine ⟨rfl, rfl, rfl, rfl, rfl, ?_⟩
  intro r
  exact (Bool.eq_false_or_eq_true _).symm

/-! ## Player config attributes: data/config.py vs the watcher's reads -/

/-- The `Player` config dataclass (data/config.py:74-94) with its field
default values. -/
structure Player where
  timeout_restart : Nat := 20
  volume_step : Nat := 5
  dynamic_range_compression : Bool := true
deriving DecidableEq, Repr

/-- The attribute names the `Player` dataclass defines
(data/config.py:74-94); `getattr` on any other name raises
`AttributeError`. -/
def Player.fieldNames : List String :=
  ["mpv_options", "timeout_restart", "volume_step", "dynamic_range_compression"]

/-- Whether `getattr` on a `Player` instance succeeds for a given name. -/
def Player.hasAttr (name : String) : Bool := Player.fieldNames.contains name

/-- The two player-config attribute names `MPVWatcher` reads:
`Config.get_config().player.restart_timeout` in `__init__` (mpvThread.py:47)
and `Config.get_config().player.inactivity_timeout` in the polling loop
(mpvThread.py:65). -/
def watcherConfigReads : List String := ["restart_timeout", "inactivity_timeout"]

/-- C3 code bug, evaluated at the failing input: neither attribute name the
watcher reads is a field of the `Player` dataclass (it defines
`timeout_restart`, and no inactivity field at all), so both reads raise
`AttributeError` — constructing the watcher and running its polling loop fail
on config access under every configuration, while the nearby name
`timeout_restart` does exist. -/
theorem c3_config_reads_fail :
    watcherConfigReads.all (fun a => !Player.hasAttr a) = true ∧
    Player.hasAttr "restart_timeout" = false ∧
    Player.hasAttr "inactivity_timeout" = false ∧
    Player.hasAttr "timeout_restart" = true := by
  refine ⟨rfl, rfl, rfl, rfl⟩

end ListenTui
